import Mathlib

/-!
Verification of the WebP→PNG/JPEG converter (`src/app.py`).

The program is a single routine `convert_webp_to_png_and_jpeg(base_filename,
quality=85)` plus a CLI shim.  We embed it shallowly:

* Python strings become `List Char` (`Str`), so that path arithmetic
  (`os.path.join`, the `".webp"` suffix strip `base_filename[:-5]`) is plain
  list manipulation.
* The external effects (the filesystem and the PIL codec) are an oracle
  `Env`: whether `os.path.isfile` holds of a path, whether `os.makedirs`
  succeeds, what `Image.open` returns (`none` models a raised decode
  exception), and whether each of the two `save` calls succeeds.
* The observable side effects (directory creation, files written) are an
  explicit `FS` record threaded through the computation.
* Python exceptions are `Except`: the body of the outer `try` has type
  `Except (PyExc × FS) Outcome`; the outer `except Exception` handler turns
  every error into a normal `false` return, so the whole function has type
  `Except PyExc Outcome` in which `.error` would mean an exception escaping
  to the caller.
-/

/-- Python strings, modelled as their character lists. -/
abbrev Str := List Char

/-- `INPUT_FOLDER = "inputs"` (app.py line 7). -/
def INPUT_FOLDER : Str := "inputs".data

/-- `OUTPUT_FOLDER = "outputs"` (app.py line 8). -/
def OUTPUT_FOLDER : Str := "outputs".data

/-- `os.path.join` for one relative component: directory, `/`, name. -/
def osPathJoin (dir name : Str) : Str := dir ++ '/' :: name

/-- Pixel modes of PIL images that matter to the program: the branch on
`img.mode` distinguishes exactly `'RGBA'`, `'RGB'` and everything else
(`P`, `L`, `LA`, `CMYK`, ...). -/
inductive Mode where
  | RGBA | RGB | P | L | LA | CMYK
deriving DecidableEq

/-- One pixel, always carried as four channels; the alpha channel is only
meaningful in mode `RGBA`. -/
structure Px where
  r : Nat
  g : Nat
  b : Nat
  a : Nat
deriving DecidableEq

/-- An in-memory PIL image: mode, dimensions and pixel buffer. -/
structure Image where
  mode : Mode
  width : Nat
  height : Nat
  px : Nat → Nat → Px

/-- `Image.new("RGB", size, color)`: a fresh RGB canvas of the given size
filled with the given color, opaque. -/
def Image.new (size : Nat × Nat) (color : Nat × Nat × Nat) : Image :=
  { mode := Mode.RGB
    width := size.1
    height := size.2
    px := fun _ _ => ⟨color.1, color.2.1, color.2.2, 255⟩ }

/-- `img.split()[3]`: the alpha band of an RGBA image, as an 8-bit mask. -/
def Image.alphaBand (img : Image) : Nat → Nat → Nat :=
  fun x y => (img.px x y).a

/-- One channel of PIL's 8-bit-mask paste: `(fg·m + bg·(255−m)) / 255`. -/
def blend (fg bg m : Nat) : Nat := (fg * m + bg * (255 - m)) / 255

/-- `bg.paste(img, mask=m)` on an RGB background: each channel of each pixel
is blended between the pasted image and the background according to the
mask; the result keeps the background's mode and size and is a fresh image
(the Python call mutates `bg`, which is itself a fresh canvas). -/
def Image.pasteMasked (bg fg : Image) (mask : Nat → Nat → Nat) : Image :=
  { bg with
    px := fun x y =>
      let m := mask x y
      ⟨blend (fg.px x y).r (bg.px x y).r m,
       blend (fg.px x y).g (bg.px x y).g m,
       blend (fg.px x y).b (bg.px x y).b m,
       255⟩ }

/-- `img.convert('RGB')`: same raster, re-expressed in mode RGB (any alpha
is dropped, i.e. forced opaque). -/
def Image.convertRGB (img : Image) : Image :=
  { img with
    mode := Mode.RGB
    px := fun x y => { img.px x y with a := 255 } }

/-- `".webp"` — the suffix stripped from `base_filename` (app.py line 30). -/
def webpSuffix : Str := ".webp".data

/-- app.py lines 30–33: `str_core_filename` is `base_filename` with one
trailing `".webp"` removed when present (`base_filename[:-5]`), otherwise
`base_filename` unchanged. -/
def str_core_filename (base_filename : Str) : Str :=
  if webpSuffix.isSuffixOf base_filename then
    base_filename.take (base_filename.length - 5)
  else
    base_filename

/-- app.py line 26: `input_path = os.path.join(INPUT_FOLDER, base_filename)`
— the raw, unstripped `base_filename`. -/
def input_path (base_filename : Str) : Str :=
  osPathJoin INPUT_FOLDER base_filename

/-- app.py line 35: `output_png_path`. -/
def output_png_path (base_filename : Str) : Str :=
  osPathJoin OUTPUT_FOLDER (str_core_filename base_filename ++ ".png".data)

/-- app.py line 36: `output_jpg_path`. -/
def output_jpg_path (base_filename : Str) : Str :=
  osPathJoin OUTPUT_FOLDER (str_core_filename base_filename ++ ".jpg".data)

/-- app.py lines 67–79: choose the image handed to the JPEG encoder.
`img_for_jpeg` starts as `img`; if `img.mode == 'RGBA'` a white RGB canvas
of the same size is created and `img` is pasted onto it with `img`'s own
alpha band as the mask; `elif img.mode != 'RGB'` the image is converted to
RGB; otherwise the original object is used unchanged. -/
def img_for_jpeg (img : Image) : Image :=
  if img.mode = Mode.RGBA then
    (Image.new (img.width, img.height) (255, 255, 255)).pasteMasked img img.alphaBand
  else if img.mode ≠ Mode.RGB then
    img.convertRGB
  else
    img

/-- Kinds of Python exception the routine can raise internally. -/
inductive PyExc where
  | osError            -- `os.makedirs` failing (e.g. permissions)
  | unidentifiedImage  -- `Image.open` failing to decode the file
deriving DecidableEq

/-- The oracle for the external world: what `os.path.isfile` answers, whether
`os.makedirs` succeeds, what `Image.open` produces (`none` = it raises), and
whether each `save` call succeeds (`false` = it raises, caught locally). -/
structure Env where
  isfile : Str → Bool
  makedirsOk : Bool
  openResult : Option Image
  pngSaveOk : Bool
  jpegSaveOk : Bool

/-- Durable side effects on the filesystem: whether `OUTPUT_FOLDER` was
created, and the path/content of each file written. -/
structure FS where
  dirCreated : Bool
  pngWritten : Option (Str × Image)
  jpgWritten : Option (Str × Image × Nat)

/-- The filesystem before any side effect. -/
def FS.empty : FS := ⟨false, none, none⟩

/-- The spec's error taxonomy for the branch that produced a `false` return
(§7 of the spec: `InputNotFound`, `DecodeError`, `UnexpectedError`). -/
inductive ErrKind where
  | inputNotFound
  | decodeError
  | unexpectedError
deriving DecidableEq

/-- What one call observably produced: the returned bool, the two per-format
success flags (the locals `png_success` / `jpg_success`, surfaced on app.py
line 88), which fatal branch fired if any, and the filesystem effects. -/
structure Outcome where
  ret : Bool
  err : Option ErrKind
  pngSuccess : Bool
  jpgSuccess : Bool
  fs : FS

/-- app.py lines 38–89: the body of the outer `try`.  `.error` is an
exception escaping this body (to be caught by the outer handler), paired
with the filesystem effects made before the raise.  The early `return False`
for a missing input (lines 40–42) is a normal return, not an exception.
Each per-format `save` sits in its own `try`: a failing save leaves its
success flag `false` and falls through to the next statement. -/
def tryBody (env : Env) (base_filename : Str) (quality : Nat) :
    Except (PyExc × FS) Outcome :=
  if env.isfile (input_path base_filename) = false then
    .ok { ret := false, err := some ErrKind.inputNotFound
          pngSuccess := false, jpgSuccess := false, fs := FS.empty }
  else if env.makedirsOk = false then
    .error (PyExc.osError, FS.empty)
  else
    let fs0 : FS := { dirCreated := true, pngWritten := none, jpgWritten := none }
    match env.openResult with
    | none => .error (PyExc.unidentifiedImage, fs0)
    | some img =>
      let pngStep : Bool × FS :=
        if env.pngSaveOk then
          (true, { fs0 with pngWritten := some (output_png_path base_filename, img) })
        else
          (false, fs0)
      let jpgStep : Bool × FS :=
        if env.jpegSaveOk then
          (true, { pngStep.2 with
                   jpgWritten := some (output_jpg_path base_filename, img_for_jpeg img, quality) })
        else
          (false, pngStep.2)
      .ok { ret := true, err := none
            pngSuccess := pngStep.1, jpgSuccess := jpgStep.1, fs := jpgStep.2 }

/-- Which taxonomy entry an exception caught by the outer handler maps to. -/
def classifyExc : PyExc → ErrKind
  | PyExc.unidentifiedImage => ErrKind.decodeError
  | PyExc.osError => ErrKind.unexpectedError

/-- app.py lines 10–94: the whole function.  The outer
`except Exception` (lines 91–94) catches every exception the body raises and
returns `False`; in the result type, `.error` would mean an exception
propagating to the caller. -/
def convert_webp_to_png_and_jpeg (env : Env) (base_filename : Str) (quality : Nat) :
    Except PyExc Outcome :=
  match tryBody env base_filename quality with
  | .ok o => .ok o
  | .error (e, fs) =>
      .ok { ret := false, err := some (classifyExc e)
            pngSuccess := false, jpgSuccess := false, fs := fs }

/-- The outcome of a call (using that the outer handler makes the function
total; the fallback is unreachable). -/
def runConvert (env : Env) (base_filename : Str) (quality : Nat) : Outcome :=
  match convert_webp_to_png_and_jpeg env base_filename quality with
  | .ok o => o
  | .error _ =>
      { ret := false, err := none, pngSuccess := false, jpgSuccess := false, fs := FS.empty }

/-- app.py line 10: the default of the `quality` parameter is 85. -/
def DEFAULT_QUALITY : Nat := 85

/-- A direct call that omits `quality` uses the parameter default. -/
def convertDefault (env : Env) (base_filename : Str) : Except PyExc Outcome :=
  convert_webp_to_png_and_jpeg env base_filename DEFAULT_QUALITY

/-- app.py line 109: the CLI's `--quality` flag defaults to 100. -/
def CLI_DEFAULT_QUALITY : Nat := 100

/-- app.py lines 97–120: the CLI shim.  `quality = none` models an
unspecified `-q` flag (argparse substitutes the default 100); out-of-range
quality is rejected before the converter is invoked (`none` result). -/
def cliMain (env : Env) (filename : Str) (quality : Option Nat) :
    Option (Except PyExc Outcome) :=
  let q := quality.getD CLI_DEFAULT_QUALITY
  if 1 ≤ q ∧ q ≤ 100 then
    some (convert_webp_to_png_and_jpeg env filename q)
  else
    none

/-! ## Concrete instances used by witnesses -/

/-- A 2×3 RGBA image with a half-transparent constant pixel. -/
def exImgRGBA : Image := ⟨Mode.RGBA, 2, 3, fun _ _ => ⟨10, 20, 30, 128⟩⟩

/-- A 2×3 plain RGB image. -/
def exImgRGB : Image := ⟨Mode.RGB, 2, 3, fun _ _ => ⟨10, 20, 30, 255⟩⟩

/-- A 2×3 palette-mode image. -/
def exImgP : Image := ⟨Mode.P, 2, 3, fun _ _ => ⟨10, 20, 30, 255⟩⟩

/-- An environment where everything succeeds except the PNG save. -/
def envPngFails : Env := ⟨fun _ => true, true, some exImgRGBA, false, true⟩

/-- An environment where the input file is missing. -/
def envNoFile : Env := ⟨fun _ => false, true, some exImgRGBA, true, true⟩

/-- An environment where the input exists but does not decode. -/
def envBadDecode : Env := ⟨fun _ => true, true, none, true, true⟩

/-! ## Theorems -/

/-- C1: `convert_webp_to_png_and_jpeg` returns `True` exactly when the input
file exists, `os.makedirs` succeeded and `Image.open` produced an image (the
two per-format attempts are then both made); the two save flags play no role
in the returned boolean. -/
theorem convert_ret_true_iff (env : Env) (b : Str) (q : Nat) :
    (runConvert env b q).ret = true ↔
      (env.isfile (input_path b) = true ∧ env.makedirsOk = true ∧
       env.openResult.isSome = true) := by
  unfold runConvert convert_webp_to_png_and_jpeg tryBody
  cases hf : env.isfile (input_path b) <;>
    cases hm : env.makedirsOk <;>
      cases ho : env.openResult <;>
        simp [hf, hm, ho]

/-- C3: when decode succeeds, each per-format save failure is recorded in its
own success flag; the JPEG attempt is made (and its file written on success)
whatever the PNG save did, the PNG outcome does not depend on the JPEG save,
and the function still returns `True`. -/
theorem png_jpeg_attempts_independent (env : Env) (b : Str) (q : Nat) (img : Image)
    (hf : env.isfile (input_path b) = true)
    (hm : env.makedirsOk = true)
    (ho : env.openResult = some img) :
    (runConvert env b q).ret = true ∧
    (runConvert env b q).pngSuccess = env.pngSaveOk ∧
    (runConvert env b q).jpgSuccess = env.jpegSaveOk ∧
    (runConvert env b q).fs.pngWritten =
      (if env.pngSaveOk then some (output_png_path b, img) else none) ∧
    (runConvert env b q).fs.jpgWritten =
      (if env.jpegSaveOk then some (output_jpg_path b, img_for_jpeg img, q) else none) := by
  unfold runConvert convert_webp_to_png_and_jpeg tryBody
  cases hp : env.pngSaveOk <;> cases hj : env.jpegSaveOk <;>
    simp [hf, hm, ho, hp, hj]

/-- Witness for C3 at a concrete environment whose PNG save fails. -/
theorem png_jpeg_attempts_independent_witness :
    (runConvert envPngFails "photo.webp".data 85).ret = true ∧
    (runConvert envPngFails "photo.webp".data 85).pngSuccess = envPngFails.pngSaveOk ∧
    (runConvert envPngFails "photo.webp".data 85).jpgSuccess = envPngFails.jpegSaveOk ∧
    (runConvert envPngFails "photo.webp".data 85).fs.pngWritten =
      (if envPngFails.pngSaveOk then some (output_png_path "photo.webp".data, exImgRGBA) else none) ∧
    (runConvert envPngFails "photo.webp".data 85).fs.jpgWritten =
      (if envPngFails.jpegSaveOk then
        some (output_jpg_path "photo.webp".data, img_for_jpeg exImgRGBA, 85) else none) :=
  png_jpeg_attempts_independent envPngFails "photo.webp".data 85 exImgRGBA rfl rfl rfl

/-- C4: a missing input file makes the call return `False` tagged
`InputNotFound`, with no side effect at all: the output directory is not
created and nothing is written. -/
theorem missing_input_no_action (env : Env) (b : Str) (q : Nat)
    (hf : env.isfile (input_path b) = false) :
    (runConvert env b q).ret = false ∧
    (runConvert env b q).err = some ErrKind.inputNotFound ∧
    (runConvert env b q).fs.dirCreated = false ∧
    (runConvert env b q).fs.pngWritten = none ∧
    (runConvert env b q).fs.jpgWritten = none := by
  unfold runConvert convert_webp_to_png_and_jpeg tryBody
  simp [hf, FS.empty]

/-- Witness for C4 at a concrete environment with no input file. -/
theorem missing_input_no_action_witness :
    (runConvert envNoFile "photo.webp".data 85).ret = false ∧
    (runConvert envNoFile "photo.webp".data 85).err = some ErrKind.inputNotFound ∧
    (runConvert envNoFile "photo.webp".data 85).fs.dirCreated = false ∧
    (runConvert envNoFile "photo.webp".data 85).fs.pngWritten = none ∧
    (runConvert envNoFile "photo.webp".data 85).fs.jpgWritten = none :=
  missing_input_no_action envNoFile "photo.webp".data 85 rfl

/-- C5: an existing input whose contents fail to decode makes the call return
`False` tagged `DecodeError`, and neither a PNG nor a JPEG file is
produced. -/
theorem decode_failure_no_outputs (env : Env) (b : Str) (q : Nat)
    (hf : env.isfile (input_path b) = true)
    (hm : env.makedirsOk = true)
    (ho : env.openResult = none) :
    (runConvert env b q).ret = false ∧
    (runConvert env b q).err = some ErrKind.decodeError ∧
    (runConvert env b q).fs.pngWritten = none ∧
    (runConvert env b q).fs.jpgWritten = none := by
  unfold runConvert convert_webp_to_png_and_jpeg tryBody
  simp [hf, hm, ho, classifyExc]

/-- Witness for C5 at a concrete environment whose decode fails. -/
theorem decode_failure_no_outputs_witness :
    (runConvert envBadDecode "photo.webp".data 85).ret = false ∧
    (runConvert envBadDecode "photo.webp".data 85).err = some ErrKind.decodeError ∧
    (runConvert envBadDecode "photo.webp".data 85).fs.pngWritten = none ∧
    (runConvert envBadDecode "photo.webp".data 85).fs.jpgWritten = none :=
  decode_failure_no_outputs envBadDecode "photo.webp".data 85 rfl rfl rfl

/-- C9: no exception escapes `convert_webp_to_png_and_jpeg`: for every
environment (every combination of raising operations) the call evaluates to
`.ok` of some boolean outcome — the outer handler catches everything the
body can raise. -/
theorem convert_never_raises (env : Env) (b : Str) (q : Nat) :
    ∃ o : Outcome, convert_webp_to_png_and_jpeg env b q = Except.ok o := by
  unfold convert_webp_to_png_and_jpeg
  rcases h : tryBody env b q with ⟨e, fs⟩ | o
  · exact ⟨_, rfl⟩
  · exact ⟨o, rfl⟩

/-- C10: the quality argument influences only the quality field of the JPEG
write: the returned boolean, both success flags, the directory effect, the
PNG write and the JPEG path and source image are identical across any two
quality values. -/
theorem quality_only_affects_jpeg (env : Env) (b : Str) (q1 q2 : Nat) :
    (runConvert env b q1).pngSuccess = (runConvert env b q2).pngSuccess ∧
    (runConvert env b q1).fs.pngWritten = (runConvert env b q2).fs.pngWritten ∧
    (runConvert env b q1).ret = (runConvert env b q2).ret ∧
    (runConvert env b q1).err = (runConvert env b q2).err ∧
    (runConvert env b q1).jpgSuccess = (runConvert env b q2).jpgSuccess ∧
    (runConvert env b q1).fs.dirCreated = (runConvert env b q2).fs.dirCreated ∧
    (runConvert env b q1).fs.jpgWritten.map (fun t => (t.1, t.2.1)) =
      (runConvert env b q2).fs.jpgWritten.map (fun t => (t.1, t.2.1)) := by
  unfold runConvert convert_webp_to_png_and_jpeg tryBody
  cases hf : env.isfile (input_path b) <;>
    cases hm : env.makedirsOk <;>
      cases ho : env.openResult <;>
        cases hp : env.pngSaveOk <;>
          cases hj : env.jpegSaveOk <;>
            simp [hf, hm, ho, hp, hj]

/-- C2: the three-way selection of the JPEG encode source.  For an RGBA
image, the source is the fresh same-size canvas — RGB, every pixel opaque
white `(255,255,255)` — with the image pasted onto it under its own alpha
band; for any other non-RGB mode, the source is the RGB conversion; for a
plain RGB image, the source is the decoded image itself, unchanged. -/
theorem jpeg_source_three_way (img : Image) :
    (img.mode = Mode.RGBA →
      img_for_jpeg img =
        (Image.new (img.width, img.height) (255, 255, 255)).pasteMasked img img.alphaBand ∧
      (Image.new (img.width, img.height) (255, 255, 255)).mode = Mode.RGB ∧
      (Image.new (img.width, img.height) (255, 255, 255)).width = img.width ∧
      (Image.new (img.width, img.height) (255, 255, 255)).height = img.height ∧
      (∀ x y, (Image.new (img.width, img.height) (255, 255, 255)).px x y = ⟨255, 255, 255, 255⟩)) ∧
    (img.mode ≠ Mode.RGBA → img.mode ≠ Mode.RGB → img_for_jpeg img = img.convertRGB) ∧
    (img.mode = Mode.RGB → img_for_jpeg img = img) := by
  refine ⟨fun h => ?_, fun h1 h2 => ?_, fun h => ?_⟩
  · rw [img_for_jpeg, if_pos h]
    exact ⟨rfl, rfl, rfl, rfl, fun _ _ => rfl⟩
  · rw [img_for_jpeg, if_neg ?_, if_pos h2]
    simp [h1]
  · rw [img_for_jpeg, if_neg ?_, if_neg ?_]
    · simp [h]
    · simp [h]

/-- Witness for C2: the three branches at concrete RGBA, palette and RGB
images. -/
theorem jpeg_source_three_way_witness :
    (img_for_jpeg exImgRGBA =
      (Image.new (exImgRGBA.width, exImgRGBA.height) (255, 255, 255)).pasteMasked
        exImgRGBA exImgRGBA.alphaBand) ∧
    img_for_jpeg exImgP = exImgP.convertRGB ∧
    img_for_jpeg exImgRGB = exImgRGB :=
  ⟨((jpeg_source_three_way exImgRGBA).1 rfl).1,
   (jpeg_source_three_way exImgP).2.1 (by decide) (by decide),
   (jpeg_source_three_way exImgRGB).2.2 rfl⟩

/-- C6 fails at a stem that already ends in `".webp"`: with `s = "a.webp"`,
the call on `s` writes `outputs/a.png` (the suffix is stripped), not
`outputs/a.webp.png`, and the call on `s ++ ".webp"` produces a different
path — the two calls do not compute identical output files. -/
theorem stem_roundtrip_counterexample :
    output_png_path "a.webp".data = "outputs/a.png".data ∧
    output_png_path ("a.webp".data ++ webpSuffix) = "outputs/a.webp.png".data ∧
    output_png_path "a.webp".data ≠ output_png_path ("a.webp".data ++ webpSuffix) := by
  refine ⟨by decide, by decide, by decide⟩

/-- C6 amended: for every stem `s` that does not itself end in `".webp"`,
the calls on `s` and on `s ++ ".webp"` compute identical output paths,
namely `outputs/<s>.png` and `outputs/<s>.jpg` — the suffix is stripped
exactly once. -/
theorem stem_roundtrip (s : Str) (h : webpSuffix.isSuffixOf s = false) :
    str_core_filename (s ++ webpSuffix) = s ∧
    str_core_filename s = s ∧
    output_png_path (s ++ webpSuffix) = output_png_path s ∧
    output_jpg_path (s ++ webpSuffix) = output_jpg_path s ∧
    output_png_path s = osPathJoin OUTPUT_FOLDER (s ++ ".png".data) ∧
    output_jpg_path s = osPathJoin OUTPUT_FOLDER (s ++ ".jpg".data) := by
  have hw : webpSuffix.length = 5 := rfl
  have h1 : str_core_filename (s ++ webpSuffix) = s := by
    rw [str_core_filename, if_pos]
    · rw [List.length_append, hw, Nat.add_sub_cancel]
      exact List.take_left' rfl
    · exact List.isSuffixOf_iff_suffix.mpr (List.suffix_append s webpSuffix)
  have h2 : str_core_filename s = s := by
    rw [str_core_filename, if_neg]
    simp [h]
  refine ⟨h1, h2, ?_, ?_, ?_, ?_⟩ <;>
    simp [output_png_path, output_jpg_path, h1, h2]

/-- Witness for C6 amended at the spec's own example stem `"photo"`. -/
theorem stem_roundtrip_witness :
    webpSuffix.isSuffixOf "photo".data = false ∧
    (str_core_filename ("photo".data ++ webpSuffix) = "photo".data ∧
     str_core_filename "photo".data = "photo".data ∧
     output_png_path ("photo".data ++ webpSuffix) = output_png_path "photo".data ∧
     output_jpg_path ("photo".data ++ webpSuffix) = output_jpg_path "photo".data ∧
     output_png_path "photo".data = osPathJoin OUTPUT_FOLDER ("photo".data ++ ".png".data) ∧
     output_jpg_path "photo".data = osPathJoin OUTPUT_FOLDER ("photo".data ++ ".jpg".data)) :=
  ⟨by decide, stem_roundtrip "photo".data (by decide)⟩

/-- C7: the input path is the fixed input directory joined with the raw,
unstripped `base_filename`.  A `base_filename` given without the `".webp"`
suffix is looked up verbatim — when no file of that exact name exists the
call fails as `InputNotFound` — while the same unstripped string is the
output stem, so the output paths are `outputs/<base>.png` /
`outputs/<base>.jpg`. -/
theorem raw_lookup_stripped_stem (env : Env) (b : Str) (q : Nat)
    (hns : webpSuffix.isSuffixOf b = false)
    (hf : env.isfile (input_path b) = false) :
    input_path b = INPUT_FOLDER ++ '/' :: b ∧
    (runConvert env b q).ret = false ∧
    (runConvert env b q).err = some ErrKind.inputNotFound ∧
    str_core_filename b = b ∧
    output_png_path b = OUTPUT_FOLDER ++ '/' :: (b ++ ".png".data) ∧
    output_jpg_path b = OUTPUT_FOLDER ++ '/' :: (b ++ ".jpg".data) := by
  have hstem : str_core_filename b = b := by
    rw [str_core_filename, if_neg]
    simp [hns]
  refine ⟨rfl, ?_, ?_, hstem, ?_, ?_⟩
  · unfold runConvert convert_webp_to_png_and_jpeg tryBody
    simp [hf]
  · unfold runConvert convert_webp_to_png_and_jpeg tryBody
    simp [hf]
  · rw [output_png_path, hstem]; rfl
  · rw [output_jpg_path, hstem]; rfl

/-- Witness for C7 at the suffixless name `"photo"` and an environment with
no input file. -/
theorem raw_lookup_stripped_stem_witness :
    webpSuffix.isSuffixOf "photo".data = false ∧
    (input_path "photo".data = INPUT_FOLDER ++ '/' :: "photo".data ∧
     (runConvert envNoFile "photo".data 85).ret = false ∧
     (runConvert envNoFile "photo".data 85).err = some ErrKind.inputNotFound ∧
     str_core_filename "photo".data = "photo".data ∧
     output_png_path "photo".data = OUTPUT_FOLDER ++ '/' :: ("photo".data ++ ".png".data) ∧
     output_jpg_path "photo".data = OUTPUT_FOLDER ++ '/' :: ("photo".data ++ ".jpg".data)) :=
  ⟨by decide, raw_lookup_stripped_stem envNoFile "photo".data 85 (by decide) rfl⟩

/-- C8: the two entry points disagree on the default JPEG quality: a direct
call that omits `quality` uses the parameter default 85, while the CLI with
an unspecified `-q` flag invokes the converter with 100. -/
theorem default_quality_discrepancy (env : Env) (b : Str) :
    convertDefault env b = convert_webp_to_png_and_jpeg env b 85 ∧
    cliMain env b none = some (convert_webp_to_png_and_jpeg env b 100) ∧
    DEFAULT_QUALITY = 85 ∧ CLI_DEFAULT_QUALITY = 100 ∧
    DEFAULT_QUALITY ≠ CLI_DEFAULT_QUALITY := by
  refine ⟨rfl, ?_, rfl, rfl, by decide⟩
  unfold cliMain
  simp [CLI_DEFAULT_QUALITY]
